import Mathlib

/-!
Shallow embedding of the uvzmq readiness bridge (ZeroMQ ↔ libuv integration).

The repository contains two coexisting variants of the core:
  * the compiled variant in `src/src/uvzmq.c` (batched drain loop with a hard
    cap of 1000 messages and a pending-input re-check every 50 messages),
    modelled in namespace `uvzmq_c`;
  * the header-only variant in `src/include/uvzmq.h` (implementation section)
    and its standalone copy `src/unnamed/part_002` (drain loop without batching
    limits, asynchronous close with a reference count, reaper emulation),
    modelled in namespace `uvzmq_h`.

Pointers are modelled as `Option Nat` (`none` = NULL).  The foreign ZMQ socket
is modelled, for the drain loop, as its FIFO queue of pending messages
(`List Nat`) together with the errno a non-blocking receive reports once the
queue is empty; the `ZMQ_EVENTS`/`ZMQ_POLLIN` query is modelled as reporting
pending input exactly when the queue is non-empty (ZMQ's specified behaviour),
and is assumed to succeed.  Calls into the messaging library that operate on a
socket handle are recorded as an explicit trace so that their absence is a
provable fact.
-/

/-- POSIX errno value for would-block, as on Linux. -/
def EAGAIN : Nat := 11

/-- POSIX errno value for interrupted-by-signal, as on Linux. -/
def EINTR : Nat := 4

/-- libuv readability interest bit (`UV_READABLE`). -/
def UV_READABLE : Nat := 1

/-- `#define UVZMQ_OK 0` -/
def UVZMQ_OK : Int := 0

/-- `#define UVZMQ_ERROR_INVALID_PARAM -1` -/
def UVZMQ_ERROR_INVALID_PARAM : Int := -1

/-- `#define UVZMQ_ERROR_NOMEM -2` -/
def UVZMQ_ERROR_NOMEM : Int := -2

/-- `#define UVZMQ_ERROR_INIT_FAILED -3` -/
def UVZMQ_ERROR_INIT_FAILED : Int := -3

/-- `#define UVZMQ_ERROR_POLL_START_FAILED -4` -/
def UVZMQ_ERROR_POLL_START_FAILED : Int := -4

/-- `#define UVZMQ_ERROR_GETSOCKOPT_FAILED -5` -/
def UVZMQ_ERROR_GETSOCKOPT_FAILED : Int := -5

namespace uvzmq_c

/-- `struct uvzmq_socket_s` from `src/src/uvzmq.c` (lines 27-39).
`loop` and `zmq_sock` hold the pointer values stored in the struct (non-null
by construction in `uvzmq_socket_new`); `on_recv`/`on_send` record whether the
callback pointers are non-null; `poll_handle` records whether the poll-handle
pointer is non-null. -/
structure uvzmq_socket_s where
  loop : Nat
  zmq_sock : Nat
  zmq_fd : Int
  on_recv : Bool
  on_send : Bool
  user_data : Option Nat
  closed : Bool
  poll_handle : Bool
  total_messages : Int
deriving Repr, DecidableEq

/-- Observable outcome of one run of the drain loop in `uvzmq_poll_callback`
(`src/src/uvzmq.c` lines 54-91): the messages handed to `on_recv` in order,
the socket queue left behind, the `ZMQ_EVENTS` queries performed (the batch
count at the query together with the `ZMQ_POLLIN` answer), the number of
`zmq_msg_recv` calls issued, and whether the error branch's `fprintf` ran. -/
structure DrainTrace where
  delivered : List Nat
  remaining : List Nat
  queries : List (Nat × Bool)
  recv_calls : Nat
  logged : Bool
deriving Repr, DecidableEq

/-- The drain loop of `uvzmq_poll_callback` in `src/src/uvzmq.c` (lines
54-91).  `queue` is the socket's pending-message FIFO, `e` the errno reported
by `zmq_msg_recv` once the queue is empty, `bc` the current `batch_count`.
Per iteration: a non-blocking receive; on success the message is delivered and
`batch_count` incremented; when `batch_count % 50 == 0` the `ZMQ_EVENTS`
option is queried and the loop breaks if `ZMQ_POLLIN` is clear; the loop also
breaks once `batch_count >= 1000`.  On a failed receive the loop breaks,
silently when `errno == EAGAIN` and through the logging error branch
otherwise. -/
def drainLoopC (queue : List Nat) (e : Nat) (bc : Nat) : DrainTrace :=
  match queue with
  | [] =>
      { delivered := [], remaining := [], queries := [],
        recv_calls := 1, logged := e != EAGAIN }
  | m :: rest =>
      let bc' := bc + 1
      let qs : List (Nat × Bool) :=
        if bc' % 50 = 0 then [(bc', !rest.isEmpty)] else []
      if (bc' % 50 = 0 ∧ rest = []) ∨ 1000 ≤ bc' then
        { delivered := [m], remaining := rest, queries := qs,
          recv_calls := 1, logged := false }
      else
        let t := drainLoopC rest e bc'
        { delivered := m :: t.delivered, remaining := t.remaining,
          queries := qs ++ t.queries, recv_calls := 1 + t.recv_calls,
          logged := t.logged }

/-- Result of one invocation of `uvzmq_poll_callback`: the (possibly updated)
bridge struct plus the drain observations. -/
structure PollResult where
  socket : uvzmq_socket_s
  delivered : List Nat
  remaining : List Nat
  queries : List (Nat × Bool)
  recv_calls : Nat
  logged : Bool
deriving Repr, DecidableEq

/-- `uvzmq_poll_callback` from `src/src/uvzmq.c` (lines 41-93): if the bridge
is closed, return immediately; otherwise, when the event mask is readable and
`on_recv` is non-null, run the drain loop (starting from `batch_count = 0`)
and bump `total_messages` once per delivered message. -/
def uvzmq_poll_callback (socket : uvzmq_socket_s) (events : Nat)
    (queue : List Nat) (e : Nat) : PollResult :=
  if socket.closed then
    { socket := socket, delivered := [], remaining := queue, queries := [],
      recv_calls := 0, logged := false }
  else if events &&& UV_READABLE ≠ 0 ∧ socket.on_recv = true then
    let t := drainLoopC queue e 0
    { socket := { socket with
        total_messages := socket.total_messages + t.delivered.length },
      delivered := t.delivered, remaining := t.remaining,
      queries := t.queries, recv_calls := t.recv_calls, logged := t.logged }
  else
    { socket := socket, delivered := [], remaining := queue, queries := [],
      recv_calls := 0, logged := false }

/-- Environment for `uvzmq_socket_new`: which of the fallible external steps
succeed.  `getsockopt_fd` is `some fd` when the `ZMQ_FD` query returns 0 and
stores `fd`, `none` when it fails. -/
structure NewEnv where
  malloc_sock_ok : Bool
  getsockopt_fd : Option Int
  malloc_poll_ok : Bool
  poll_init_rc : Int
  poll_start_rc : Int
deriving Repr, DecidableEq

/-- `uvzmq_socket_new` from `src/src/uvzmq.c` (lines 95-163).  `socket_out`
records whether the caller's out-pointer is non-null.  The second component of
the result is the value written through the out-pointer (`none` when nothing
is written, which is every path except success). -/
def uvzmq_socket_new (env : NewEnv) (loop zmq_sock : Option Nat)
    (on_recv on_send : Bool) (user_data : Option Nat) (socket_out : Bool) :
    Int × Option uvzmq_socket_s :=
  match loop, zmq_sock, socket_out with
  | some lp, some zs, true =>
      if env.malloc_sock_ok = false then (UVZMQ_ERROR_NOMEM, none)
      else
        match env.getsockopt_fd with
        | none => (UVZMQ_ERROR_GETSOCKOPT_FAILED, none)
        | some fd =>
            if env.malloc_poll_ok = false then (UVZMQ_ERROR_NOMEM, none)
            else if env.poll_init_rc ≠ 0 then (UVZMQ_ERROR_INIT_FAILED, none)
            else if env.poll_start_rc ≠ 0 then
              (UVZMQ_ERROR_POLL_START_FAILED, none)
            else
              (UVZMQ_OK,
               some { loop := lp, zmq_sock := zs, zmq_fd := fd,
                      on_recv := on_recv, on_send := on_send,
                      user_data := user_data, closed := false,
                      poll_handle := true, total_messages := 0 })
  | _, _, _ => (UVZMQ_ERROR_INVALID_PARAM, none)

/-- `uvzmq_socket_close` from `src/src/uvzmq.c` (lines 165-173).  Returns the
status and the updated pointee.  The third component is the trace of foreign
ZMQ socket handles operated on (the function makes no call into the messaging
library, so it is empty). -/
def uvzmq_socket_close (socket : Option uvzmq_socket_s) :
    Int × Option uvzmq_socket_s × List Nat :=
  match socket with
  | none => (UVZMQ_ERROR_INVALID_PARAM, none, [])
  | some s =>
      if s.closed then (UVZMQ_ERROR_INVALID_PARAM, some s, [])
      else (UVZMQ_OK, some { s with closed := true }, [])

/-- `uvzmq_socket_free` from `src/src/uvzmq.c` (lines 175-195).  The second
component holds the struct's field values at the point `UVZMQ_FREE(sock)`
releases its memory (`none` when the argument is NULL); the third is the trace
of foreign ZMQ socket handles operated on (empty: the function calls only
`uv_poll_stop` and the allocator). -/
def uvzmq_socket_free (socket : Option uvzmq_socket_s) :
    Int × Option uvzmq_socket_s × List Nat :=
  match socket with
  | none => (UVZMQ_ERROR_INVALID_PARAM, none, [])
  | some s =>
      let s1 := if s.closed = false then { s with closed := true } else s
      let s2 := if s1.poll_handle then { s1 with poll_handle := false } else s1
      (UVZMQ_OK, some s2, [])

/-- `uvzmq_get_zmq_socket` from `src/src/uvzmq.c` (lines 197-200). -/
def uvzmq_get_zmq_socket (socket : Option uvzmq_socket_s) : Option Nat :=
  match socket with
  | some s => some s.zmq_sock
  | none => none

/-- `uvzmq_get_loop` from `src/src/uvzmq.c` (lines 202-205). -/
def uvzmq_get_loop (socket : Option uvzmq_socket_s) : Option Nat :=
  match socket with
  | some s => some s.loop
  | none => none

/-- `uvzmq_get_user_data` from `src/src/uvzmq.c` (lines 207-210). -/
def uvzmq_get_user_data (socket : Option uvzmq_socket_s) : Option Nat :=
  match socket with
  | some s => s.user_data
  | none => none

end uvzmq_c

/-- Effect on the set of live foreign ZMQ sockets of a trace of
socket-closing calls into the messaging library: every socket named in the
trace is removed from the live set. -/
def zmqWorldAfter (calls : List Nat) (world : List Nat) : List Nat :=
  world.filter (fun x => !(calls.contains x))

namespace uvzmq_h

/-- `struct uvzmq_socket_s` from the header-only variant
(`src/include/uvzmq.h`, lines 373-382): same fields as the compiled variant
except that `on_send`/`total_messages` are absent and `ref_count` is added
for the asynchronous close protocol. -/
structure uvzmq_socket_s where
  loop : Nat
  zmq_sock : Nat
  zmq_fd : Int
  on_recv : Bool
  user_data : Option Nat
  closed : Bool
  poll_handle : Bool
  ref_count : Int
deriving Repr, DecidableEq

/-- Observable outcome of one run of the header-only drain loop: messages
delivered in order, queue left behind, number of `zmq_msg_recv` calls.  This
variant performs no `ZMQ_EVENTS` queries and contains no logging call. -/
structure DrainTraceH where
  delivered : List Nat
  remaining : List Nat
  recv_calls : Nat
deriving Repr, DecidableEq

/-- The drain loop of the header-only `uvzmq_poll_callback`
(`src/include/uvzmq.h` lines 518-532, identically `src/unnamed/part_002`
lines 53-67): receive non-blockingly until the receive fails; on failure the
loop breaks whether `errno` is `EAGAIN`, `EINTR`, or anything else (the two
failure branches have identical bodies: close the message and break, with no
logging); there is no batch cap and no pending-input re-check. -/
def drainLoopH (queue : List Nat) (e : Nat) : DrainTraceH :=
  match queue with
  | [] => { delivered := [], remaining := [], recv_calls := 1 }
  | m :: rest =>
      let t := drainLoopH rest e
      { delivered := m :: t.delivered, remaining := t.remaining,
        recv_calls := 1 + t.recv_calls }

/-- Result of one invocation of the header-only `uvzmq_poll_callback`. -/
structure PollResult where
  socket : uvzmq_socket_s
  delivered : List Nat
  remaining : List Nat
  recv_calls : Nat
deriving Repr, DecidableEq

/-- `uvzmq_poll_callback` from `src/include/uvzmq.h` (lines 509-534): return
immediately when the bridge is closed; otherwise, when the event mask is
readable and `on_recv` is non-null, run the unbatched drain loop. -/
def uvzmq_poll_callback (socket : uvzmq_socket_s) (events : Nat)
    (queue : List Nat) (e : Nat) : PollResult :=
  if socket.closed then
    { socket := socket, delivered := [], remaining := queue, recv_calls := 0 }
  else if events &&& UV_READABLE ≠ 0 ∧ socket.on_recv = true then
    let t := drainLoopH queue e
    { socket := socket, delivered := t.delivered, remaining := t.remaining,
      recv_calls := t.recv_calls }
  else
    { socket := socket, delivered := [], remaining := queue, recv_calls := 0 }

/-- Environment for the header-only `uvzmq_socket_new`, as in the compiled
variant. -/
structure NewEnv where
  malloc_sock_ok : Bool
  getsockopt_fd : Option Int
  malloc_poll_ok : Bool
  poll_init_rc : Int
  poll_start_rc : Int
deriving Repr, DecidableEq

/-- `uvzmq_socket_new` from `src/include/uvzmq.h` (lines 536-606): same
structure as the compiled variant but every failure returns the bare status
`-1`; on success `ref_count` is initialized to 0. -/
def uvzmq_socket_new (env : NewEnv) (loop zmq_sock : Option Nat)
    (on_recv : Bool) (user_data : Option Nat) (socket_out : Bool) :
    Int × Option uvzmq_socket_s :=
  match loop, zmq_sock, socket_out with
  | some lp, some zs, true =>
      if env.malloc_sock_ok = false then (-1, none)
      else
        match env.getsockopt_fd with
        | none => (-1, none)
        | some fd =>
            if env.malloc_poll_ok = false then (-1, none)
            else if env.poll_init_rc ≠ 0 then (-1, none)
            else if env.poll_start_rc ≠ 0 then (-1, none)
            else
              (0, some { loop := lp, zmq_sock := zs, zmq_fd := fd,
                         on_recv := on_recv, user_data := user_data,
                         closed := false, poll_handle := true,
                         ref_count := 0 })
  | _, _, _ => (-1, none)

/-- `uvzmq_get_zmq_socket` from `src/include/uvzmq.h` (lines 422-424). -/
def uvzmq_get_zmq_socket (socket : Option uvzmq_socket_s) : Option Nat :=
  match socket with
  | some s => some s.zmq_sock
  | none => none

/-- `uvzmq_get_loop` from `src/include/uvzmq.h` (lines 432-434). -/
def uvzmq_get_loop (socket : Option uvzmq_socket_s) : Option Nat :=
  match socket with
  | some s => some s.loop
  | none => none

/-- `uvzmq_get_user_data` from `src/include/uvzmq.h` (lines 442-444). -/
def uvzmq_get_user_data (socket : Option uvzmq_socket_s) : Option Nat :=
  match socket with
  | some s => s.user_data
  | none => none

/-- `uvzmq_get_fd` from `src/include/uvzmq.h` (lines 452-454): returns the
stored descriptor, or `-1` for a NULL bridge. -/
def uvzmq_get_fd (socket : Option uvzmq_socket_s) : Int :=
  match socket with
  | some s => s.zmq_fd
  | none => -1

/-- `uvzmq_socket_close` from `src/include/uvzmq.h` (lines 636-643).  Same
shape as the compiled variant; the trace of foreign ZMQ socket handles
operated on is empty. -/
def uvzmq_socket_close (socket : Option uvzmq_socket_s) :
    Int × Option uvzmq_socket_s × List Nat :=
  match socket with
  | none => (-1, none, [])
  | some s =>
      if s.closed then (-1, some s, [])
      else (0, some { s with closed := true }, [])

/-- `uvzmq_socket_free` from `src/include/uvzmq.h` (lines 660-677): closes the
bridge if still open, then, when the poll handle is present, increments
`ref_count`, stops the poll handle, schedules its asynchronous close (the
completion callback later releases the struct) and nulls the field.  The
second component is the struct content when `uvzmq_socket_free` returns; the
third is the trace of foreign ZMQ socket handles operated on (empty). -/
def uvzmq_socket_free (socket : Option uvzmq_socket_s) :
    Int × Option uvzmq_socket_s × List Nat :=
  match socket with
  | none => (-1, none, [])
  | some s =>
      let s1 := if s.closed = false then { s with closed := true } else s
      let s2 :=
        if s1.poll_handle then
          { s1 with ref_count := s1.ref_count + 1, poll_handle := false }
        else s1
      (0, some s2, [])

/-- `struct uvzmq_reaper_s` from `src/unnamed/part_002` (lines 23-27); the
timer handle itself is external state and is not part of the claims. -/
structure uvzmq_reaper_s where
  loop : Nat
  running : Bool
deriving Repr, DecidableEq

/-- Environment for `uvzmq_reaper_start`: whether the allocation of the
global reaper succeeds and the return codes of the timer primitives. -/
structure ReaperEnv where
  malloc_ok : Bool
  timer_init_rc : Int
  timer_start_rc : Int
deriving Repr, DecidableEq

/-- `uvzmq_reaper_start` from `src/unnamed/part_002` (lines 216-255).
`g` is the global `g_reaper` pointer (`none` = NULL).  If a reaper is already
running on this very loop, return 0 without touching anything; otherwise
allocate the global if absent, point it at `loop`, and (re)initialize and
start the 10ms timer. -/
def uvzmq_reaper_start (env : ReaperEnv) (g : Option uvzmq_reaper_s)
    (loop : Option Nat) : Int × Option uvzmq_reaper_s :=
  match loop with
  | none => (-1, g)
  | some lp =>
      match g with
      | some r =>
          if r.loop = lp ∧ r.running = true then (0, some r)
          else
            let r1 : uvzmq_reaper_s := { loop := lp, running := r.running }
            if env.timer_init_rc ≠ 0 then (-1, some r1)
            else if env.timer_start_rc ≠ 0 then (-1, some r1)
            else (0, some { r1 with running := true })
      | none =>
          if env.malloc_ok = false then (-1, none)
          else
            let r1 : uvzmq_reaper_s := { loop := lp, running := false }
            if env.timer_init_rc ≠ 0 then (-1, some r1)
            else if env.timer_start_rc ≠ 0 then (-1, some r1)
            else (0, some { r1 with running := true })

/-- `uvzmq_reaper_stop` from `src/unnamed/part_002` (lines 257-271): fails
with `-1` when the loop is NULL, no global reaper exists, or the global
reaper was started on a different loop; returns 0 without doing anything when
the reaper is not running; otherwise stops the timer and clears `running`. -/
def uvzmq_reaper_stop (g : Option uvzmq_reaper_s) (loop : Option Nat) :
    Int × Option uvzmq_reaper_s :=
  match loop, g with
  | some lp, some r =>
      if r.loop ≠ lp then (-1, some r)
      else if r.running = false then (0, some r)
      else (0, some { r with running := false })
  | _, _ => (-1, g)

end uvzmq_h

/-- The batched drain loop, entered with batch count `bc`, delivers the whole
queue when the queue fits within the remaining batch budget. -/
theorem drainLoopC_delivered_of_le (q : List Nat) (e : Nat) :
    ∀ bc : Nat, bc + q.length ≤ 1000 →
      (uvzmq_c.drainLoopC q e bc).delivered = q ∧
      (uvzmq_c.drainLoopC q e bc).remaining = [] := by
  induction q with
  | nil => intro bc _; exact ⟨rfl, rfl⟩
  | cons m rest ih =>
      intro bc h
      simp only [List.length_cons] at h
      simp only [uvzmq_c.drainLoopC]
      split
      · next hbr =>
          rcases hbr with ⟨_, hrest⟩ | hcap
          · simp [hrest]
          · have hlen : rest.length = 0 := by omega
            have hrest : rest = [] := List.eq_nil_of_length_eq_zero hlen
            simp [hrest]
      · next =>
          have hih := ih (bc + 1) (by omega)
          simp [hih.1, hih.2]

/-- The batched drain loop never delivers more than its remaining batch
budget. -/
theorem drainLoopC_length_le (q : List Nat) (e : Nat) :
    ∀ bc : Nat, bc ≤ 999 →
      (uvzmq_c.drainLoopC q e bc).delivered.length + bc ≤ 1000 := by
  induction q with
  | nil => intro bc h; simpa [uvzmq_c.drainLoopC] using by omega
  | cons m rest ih =>
      intro bc h
      simp only [uvzmq_c.drainLoopC]
      split
      · next => simp; omega
      · next hbr =>
          push_neg at hbr
          have hcap : bc + 1 ≤ 999 := by omega
          have hih := ih (bc + 1) hcap
          simp only [List.length_cons]
          omega

/-- Every pending-input query made by the batched drain loop happens at a
batch count that is a positive multiple of 50 (counting from entry count
`bc`), and a query answering "no input pending" ends the loop right there. -/
theorem drainLoopC_queries_spec (q : List Nat) (e : Nat) :
    ∀ bc : Nat, ∀ p ∈ (uvzmq_c.drainLoopC q e bc).queries,
      p.1 % 50 = 0 ∧ bc < p.1 ∧
      (p.2 = false → (uvzmq_c.drainLoopC q e bc).delivered.length + bc = p.1) := by
  induction q with
  | nil => intro bc p hp; simp [uvzmq_c.drainLoopC] at hp
  | cons m rest ih =>
      intro bc p hp
      by_cases hbr : ((bc + 1) % 50 = 0 ∧ rest = []) ∨ 1000 ≤ bc + 1
      · by_cases h50 : (bc + 1) % 50 = 0
        · simp only [uvzmq_c.drainLoopC, if_pos h50, if_pos hbr,
            List.mem_singleton] at hp
          subst hp
          refine ⟨h50, by omega, fun _ => ?_⟩
          simp only [uvzmq_c.drainLoopC, if_pos hbr, if_pos h50,
            List.length_singleton]
          omega
        · simp only [uvzmq_c.drainLoopC, if_neg h50, if_pos hbr] at hp
          exact absurd hp (List.not_mem_nil p)
      · by_cases h50 : (bc + 1) % 50 = 0
        · simp only [uvzmq_c.drainLoopC, if_pos h50, if_neg hbr,
            List.singleton_append, List.mem_cons] at hp
          rcases hp with hp | hp
          · subst hp
            refine ⟨h50, by omega, fun hfalse => ?_⟩
            exfalso
            have hre : rest = [] := by simpa using hfalse
            exact hbr (Or.inl ⟨h50, hre⟩)
          · obtain ⟨h1, h2, h3⟩ := ih (bc + 1) p hp
            refine ⟨h1, by omega, fun hfalse => ?_⟩
            have h4 := h3 hfalse
            simp only [uvzmq_c.drainLoopC, if_neg hbr, List.length_cons]
            omega
        · simp only [uvzmq_c.drainLoopC, if_neg h50, if_neg hbr,
            List.nil_append] at hp
          obtain ⟨h1, h2, h3⟩ := ih (bc + 1) p hp
          refine ⟨h1, by omega, fun hfalse => ?_⟩
          have h4 := h3 hfalse
          simp only [uvzmq_c.drainLoopC, if_neg hbr, List.length_cons]
          omega

/-- The unbatched header-variant drain loop always delivers the whole
queue, regardless of the errno reported when the queue runs out. -/
theorem drainLoopH_delivers (q : List Nat) (e : Nat) :
    (uvzmq_h.drainLoopH q e).delivered = q ∧
    (uvzmq_h.drainLoopH q e).remaining = [] := by
  induction q with
  | nil => exact ⟨rfl, rfl⟩
  | cons m rest ih => simp [uvzmq_h.drainLoopH, ih.1, ih.2]

/-- When the compiled variant's `uvzmq_socket_new` reports success with
non-null arguments, the value written through the out-pointer is exactly the
bridge built from the inputs and the queried descriptor. -/
theorem uvzmq_c_socket_new_success (env : uvzmq_c.NewEnv) (lp zs : Nat)
    (onr ons : Bool) (ud : Option Nat)
    (h : (uvzmq_c.uvzmq_socket_new env (some lp) (some zs) onr ons ud true).1 =
      UVZMQ_OK) :
    ∃ fd, env.getsockopt_fd = some fd ∧
      (uvzmq_c.uvzmq_socket_new env (some lp) (some zs) onr ons ud true).2 =
        some { loop := lp, zmq_sock := zs, zmq_fd := fd, on_recv := onr,
               on_send := ons, user_data := ud, closed := false,
               poll_handle := true, total_messages := 0 } := by
  by_cases h1 : env.malloc_sock_ok = false
  · simp [uvzmq_c.uvzmq_socket_new, h1, UVZMQ_ERROR_NOMEM, UVZMQ_OK] at h
  · rcases h2 : env.getsockopt_fd with _ | fd
    · simp [uvzmq_c.uvzmq_socket_new, h1, h2,
        UVZMQ_ERROR_GETSOCKOPT_FAILED, UVZMQ_OK] at h
    · by_cases h3 : env.malloc_poll_ok = false
      · simp [uvzmq_c.uvzmq_socket_new, h1, h2, h3,
          UVZMQ_ERROR_NOMEM, UVZMQ_OK] at h
      · by_cases h4 : env.poll_init_rc ≠ 0
        · simp [uvzmq_c.uvzmq_socket_new, h1, h2, h3, h4,
            UVZMQ_ERROR_INIT_FAILED, UVZMQ_OK] at h
        · by_cases h5 : env.poll_start_rc ≠ 0
          · simp [uvzmq_c.uvzmq_socket_new, h1, h2, h3, h4, h5,
              UVZMQ_ERROR_POLL_START_FAILED, UVZMQ_OK] at h
          · exact ⟨fd, rfl, by
              simp [uvzmq_c.uvzmq_socket_new, h1, h2, h3, h4, h5]⟩

/-- When the header variant's `uvzmq_socket_new` reports success with
non-null arguments, the value written through the out-pointer is exactly the
bridge built from the inputs and the queried descriptor. -/
theorem uvzmq_h_socket_new_success (env : uvzmq_h.NewEnv) (lp zs : Nat)
    (onr : Bool) (ud : Option Nat)
    (h : (uvzmq_h.uvzmq_socket_new env (some lp) (some zs) onr ud true).1 = 0) :
    ∃ fd, env.getsockopt_fd = some fd ∧
      (uvzmq_h.uvzmq_socket_new env (some lp) (some zs) onr ud true).2 =
        some { loop := lp, zmq_sock := zs, zmq_fd := fd, on_recv := onr,
               user_data := ud, closed := false, poll_handle := true,
               ref_count := 0 } := by
  by_cases h1 : env.malloc_sock_ok = false
  · simp [uvzmq_h.uvzmq_socket_new, h1] at h
  · rcases h2 : env.getsockopt_fd with _ | fd
    · simp [uvzmq_h.uvzmq_socket_new, h1, h2] at h
    · by_cases h3 : env.malloc_poll_ok = false
      · simp [uvzmq_h.uvzmq_socket_new, h1, h2, h3] at h
      · by_cases h4 : env.poll_init_rc ≠ 0
        · simp [uvzmq_h.uvzmq_socket_new, h1, h2, h3, h4] at h
        · by_cases h5 : env.poll_start_rc ≠ 0
          · simp [uvzmq_h.uvzmq_socket_new, h1, h2, h3, h4, h5] at h
          · exact ⟨fd, rfl, by
              simp [uvzmq_h.uvzmq_socket_new, h1, h2, h3, h4, h5]⟩

/-- C3: for every non-null loop, non-null socket handle, and non-null output
pointer, when registration succeeds (`uvzmq_socket_new` returns 0, in either
variant) the returned Bridge is non-null and in state OPEN, and its accessors
return the same loop, the same socket handle, the supplied user_data, and a
signaling descriptor equal to the one queried from the socket at registration
time. -/
theorem C3_registration_validity (env : uvzmq_c.NewEnv) (envh : uvzmq_h.NewEnv)
    (lp zs : Nat) (onr ons : Bool) (ud : Option Nat)
    (hc : (uvzmq_c.uvzmq_socket_new env (some lp) (some zs) onr ons ud true).1 =
      UVZMQ_OK)
    (hh : (uvzmq_h.uvzmq_socket_new envh (some lp) (some zs) onr ud true).1 = 0) :
    (∃ b, (uvzmq_c.uvzmq_socket_new env (some lp) (some zs) onr ons ud true).2 =
        some b ∧
      b.closed = false ∧ b.loop = lp ∧ b.zmq_sock = zs ∧ b.user_data = ud ∧
      env.getsockopt_fd = some b.zmq_fd ∧
      uvzmq_c.uvzmq_get_zmq_socket (some b) = some zs ∧
      uvzmq_c.uvzmq_get_loop (some b) = some lp ∧
      uvzmq_c.uvzmq_get_user_data (some b) = ud) ∧
    (∃ b, (uvzmq_h.uvzmq_socket_new envh (some lp) (some zs) onr ud true).2 =
        some b ∧
      b.closed = false ∧ b.loop = lp ∧ b.zmq_sock = zs ∧ b.user_data = ud ∧
      envh.getsockopt_fd = some b.zmq_fd ∧
      uvzmq_h.uvzmq_get_zmq_socket (some b) = some zs ∧
      uvzmq_h.uvzmq_get_loop (some b) = some lp ∧
      uvzmq_h.uvzmq_get_user_data (some b) = ud ∧
      uvzmq_h.uvzmq_get_fd (some b) = b.zmq_fd) := by
  constructor
  · obtain ⟨fd, hfd, hw⟩ := uvzmq_c_socket_new_success env lp zs onr ons ud hc
    exact ⟨_, hw, rfl, rfl, rfl, rfl, hfd, rfl, rfl, rfl⟩
  · obtain ⟨fd, hfd, hw⟩ := uvzmq_h_socket_new_success envh lp zs onr ud hh
    exact ⟨_, hw, rfl, rfl, rfl, rfl, hfd, rfl, rfl, rfl, rfl⟩

/-- Witness for C3: a concrete all-successful environment. -/
theorem C3_registration_validity_witness :
    (∃ b, (uvzmq_c.uvzmq_socket_new ⟨true, some 7, true, 0, 0⟩
        (some 1) (some 2) true false (some 3) true).2 = some b ∧
      b.closed = false ∧ b.loop = 1 ∧ b.zmq_sock = 2 ∧ b.user_data = some 3 ∧
      (uvzmq_c.NewEnv.mk true (some 7) true 0 0).getsockopt_fd = some b.zmq_fd ∧
      uvzmq_c.uvzmq_get_zmq_socket (some b) = some 2 ∧
      uvzmq_c.uvzmq_get_loop (some b) = some 1 ∧
      uvzmq_c.uvzmq_get_user_data (some b) = some 3) ∧
    (∃ b, (uvzmq_h.uvzmq_socket_new ⟨true, some 7, true, 0, 0⟩
        (some 1) (some 2) true (some 3) true).2 = some b ∧
      b.closed = false ∧ b.loop = 1 ∧ b.zmq_sock = 2 ∧ b.user_data = some 3 ∧
      (uvzmq_h.NewEnv.mk true (some 7) true 0 0).getsockopt_fd = some b.zmq_fd ∧
      uvzmq_h.uvzmq_get_zmq_socket (some b) = some 2 ∧
      uvzmq_h.uvzmq_get_loop (some b) = some 1 ∧
      uvzmq_h.uvzmq_get_user_data (some b) = some 3 ∧
      uvzmq_h.uvzmq_get_fd (some b) = b.zmq_fd) :=
  C3_registration_validity ⟨true, some 7, true, 0, 0⟩ ⟨true, some 7, true, 0, 0⟩
    1 2 true false (some 3) (by decide) (by decide)

/-- C4: registering with a null loop or a null socket handle fails with
`InvalidArgument` (status `-1` in both variants) and nothing is written
through the caller's out-pointer (the second result component, which models
the store through the out-pointer, is `none`), so a caller-initialized null
pointer stays null. -/
theorem C4_null_args (env : uvzmq_c.NewEnv) (envh : uvzmq_h.NewEnv)
    (loop zmq_sock : Option Nat) (onr ons : Bool)
    (ud : Option Nat) (so : Bool) (h : loop = none ∨ zmq_sock = none) :
    (uvzmq_c.uvzmq_socket_new env loop zmq_sock
        onr ons ud so).1 = UVZMQ_ERROR_INVALID_PARAM ∧
    (uvzmq_c.uvzmq_socket_new env loop zmq_sock
        onr ons ud so).2 = none ∧
    (uvzmq_h.uvzmq_socket_new envh loop zmq_sock
        onr ud so).1 = -1 ∧
    (uvzmq_h.uvzmq_socket_new envh loop zmq_sock
        onr ud so).2 = none := by
  rcases h with h | h
  · subst h
    rcases zmq_sock with _ | zs <;> rcases so <;>
      simp [uvzmq_c.uvzmq_socket_new, uvzmq_h.uvzmq_socket_new,
        UVZMQ_ERROR_INVALID_PARAM]
  · subst h
    rcases loop with _ | lp <;> rcases so <;>
      simp [uvzmq_c.uvzmq_socket_new, uvzmq_h.uvzmq_socket_new,
        UVZMQ_ERROR_INVALID_PARAM]

/-- Witness for C4: null loop with a valid socket handle. -/
theorem C4_null_args_witness :
    (uvzmq_c.uvzmq_socket_new ⟨true, some 7, true, 0, 0⟩ none (some 2)
        true false none true).1 = UVZMQ_ERROR_INVALID_PARAM ∧
    (uvzmq_c.uvzmq_socket_new ⟨true, some 7, true, 0, 0⟩ none (some 2)
        true false none true).2 = none ∧
    (uvzmq_h.uvzmq_socket_new ⟨true, some 7, true, 0, 0⟩ none (some 2)
        true none true).1 = -1 ∧
    (uvzmq_h.uvzmq_socket_new ⟨true, some 7, true, 0, 0⟩ none (some 2)
        true none true).2 = none :=
  C4_null_args ⟨true, some 7, true, 0, 0⟩ ⟨true, some 7, true, 0, 0⟩
    none (some 2) true false none true (Or.inl rfl)

/-- C10: on every failure path of `uvzmq_socket_new` — null arguments, failed
heap allocation of the bridge or of the poll handle, failed descriptor query,
failed poll-handle initialization, failed poll start — the function returns a
negative status and never writes through the caller's out-pointer (the store
component is `none`), in both variants. -/
theorem C10_failure_paths (env : uvzmq_c.NewEnv) (envh : uvzmq_h.NewEnv)
    (loop zmq_sock : Option Nat) (onr ons : Bool) (ud : Option Nat) (so : Bool)
    (hc : (uvzmq_c.uvzmq_socket_new env loop zmq_sock onr ons ud so).1 ≠
      UVZMQ_OK)
    (hh : (uvzmq_h.uvzmq_socket_new envh loop zmq_sock onr ud so).1 ≠ 0) :
    (uvzmq_c.uvzmq_socket_new env loop zmq_sock onr ons ud so).1 < 0 ∧
    (uvzmq_c.uvzmq_socket_new env loop zmq_sock onr ons ud so).2 = none ∧
    (uvzmq_h.uvzmq_socket_new envh loop zmq_sock onr ud so).1 < 0 ∧
    (uvzmq_h.uvzmq_socket_new envh loop zmq_sock onr ud so).2 = none := by
  rcases loop with _ | lp <;> rcases zmq_sock with _ | zs <;> rcases so <;>
    first
    | (refine ⟨?_, rfl, ?_, rfl⟩ <;>
        simp [uvzmq_c.uvzmq_socket_new, uvzmq_h.uvzmq_socket_new,
          UVZMQ_ERROR_INVALID_PARAM])
    | skip
  · -- all arguments non-null: case on the environment
    have hcc : (uvzmq_c.uvzmq_socket_new env (some lp) (some zs) onr ons ud
        true).1 < 0 ∧
        (uvzmq_c.uvzmq_socket_new env (some lp) (some zs) onr ons ud
        true).2 = none := by
      by_cases h1 : env.malloc_sock_ok = false
      · simp [uvzmq_c.uvzmq_socket_new, h1, UVZMQ_ERROR_NOMEM]
      · rcases h2 : env.getsockopt_fd with _ | fd
        · simp [uvzmq_c.uvzmq_socket_new, h1, h2, UVZMQ_ERROR_GETSOCKOPT_FAILED]
        · by_cases h3 : env.malloc_poll_ok = false
          · simp [uvzmq_c.uvzmq_socket_new, h1, h2, h3, UVZMQ_ERROR_NOMEM]
          · by_cases h4 : env.poll_init_rc ≠ 0
            · simp [uvzmq_c.uvzmq_socket_new, h1, h2, h3, h4,
                UVZMQ_ERROR_INIT_FAILED]
            · by_cases h5 : env.poll_start_rc ≠ 0
              · simp [uvzmq_c.uvzmq_socket_new, h1, h2, h3, h4, h5,
                  UVZMQ_ERROR_POLL_START_FAILED]
              · exact absurd (by
                  simp [uvzmq_c.uvzmq_socket_new, h1, h2, h3, h4, h5]) hc
    have hhh : (uvzmq_h.uvzmq_socket_new envh (some lp) (some zs) onr ud
        true).1 < 0 ∧
        (uvzmq_h.uvzmq_socket_new envh (some lp) (some zs) onr ud
        true).2 = none := by
      by_cases h1 : envh.malloc_sock_ok = false
      · simp [uvzmq_h.uvzmq_socket_new, h1]
      · rcases h2 : envh.getsockopt_fd with _ | fd
        · simp [uvzmq_h.uvzmq_socket_new, h1, h2]
        · by_cases h3 : envh.malloc_poll_ok = false
          · simp [uvzmq_h.uvzmq_socket_new, h1, h2, h3]
          · by_cases h4 : envh.poll_init_rc ≠ 0
            · simp [uvzmq_h.uvzmq_socket_new, h1, h2, h3, h4]
            · by_cases h5 : envh.poll_start_rc ≠ 0
              · simp [uvzmq_h.uvzmq_socket_new, h1, h2, h3, h4, h5]
              · exact absurd (by
                  simp [uvzmq_h.uvzmq_socket_new, h1, h2, h3, h4, h5]) hh
    exact ⟨hcc.1, hcc.2, hhh.1, hhh.2⟩

/-- Witness for C10: bridge-struct allocation failure. -/
theorem C10_failure_paths_witness :
    (uvzmq_c.uvzmq_socket_new ⟨false, some 7, true, 0, 0⟩ (some 1) (some 2)
        true false none true).1 < 0 ∧
    (uvzmq_c.uvzmq_socket_new ⟨false, some 7, true, 0, 0⟩ (some 1) (some 2)
        true false none true).2 = none ∧
    (uvzmq_h.uvzmq_socket_new ⟨false, some 7, true, 0, 0⟩ (some 1) (some 2)
        true none true).1 < 0 ∧
    (uvzmq_h.uvzmq_socket_new ⟨false, some 7, true, 0, 0⟩ (some 1) (some 2)
        true none true).2 = none :=
  C10_failure_paths ⟨false, some 7, true, 0, 0⟩ ⟨false, some 7, true, 0, 0⟩
    (some 1) (some 2) true false none true (by decide) (by decide)

/-- C1: for a queue of N messages pending on the socket before a single
readiness edge (N at most the batch cap of the compiled variant), one
invocation of the poll callback on an open bridge with a non-null receive
callback delivers exactly the queued messages, in socket order, each exactly
once — in the compiled variant whenever N ≤ 1000, and in the header-only
variant unconditionally. -/
theorem C1_drain_completeness (s : uvzmq_c.uvzmq_socket_s)
    (t : uvzmq_h.uvzmq_socket_s) (q : List Nat)
    (hs : s.closed = false) (hr : s.on_recv = true)
    (ht : t.closed = false) (htr : t.on_recv = true)
    (hn : q.length ≤ 1000) :
    (uvzmq_c.uvzmq_poll_callback s UV_READABLE q EAGAIN).delivered = q ∧
    (uvzmq_c.uvzmq_poll_callback s UV_READABLE q EAGAIN).remaining = [] ∧
    (uvzmq_h.uvzmq_poll_callback t UV_READABLE q EAGAIN).delivered = q ∧
    (uvzmq_h.uvzmq_poll_callback t UV_READABLE q EAGAIN).remaining = [] := by
  have hc := drainLoopC_delivered_of_le q EAGAIN 0 (by omega)
  have hh := drainLoopH_delivers q EAGAIN
  refine ⟨?_, ?_, ?_, ?_⟩ <;>
    simp [uvzmq_c.uvzmq_poll_callback, uvzmq_h.uvzmq_poll_callback,
      hs, hr, ht, htr, UV_READABLE, hc.1, hc.2, hh.1, hh.2]

/-- Witness for C1: three queued messages, delivered in order by both
variants. -/
theorem C1_drain_completeness_witness :
    (uvzmq_c.uvzmq_poll_callback ⟨1, 2, 3, true, false, none, false, true, 0⟩
      UV_READABLE [10, 20, 30] EAGAIN).delivered = [10, 20, 30] ∧
    (uvzmq_c.uvzmq_poll_callback ⟨1, 2, 3, true, false, none, false, true, 0⟩
      UV_READABLE [10, 20, 30] EAGAIN).remaining = [] ∧
    (uvzmq_h.uvzmq_poll_callback ⟨1, 2, 3, true, none, false, true, 0⟩
      UV_READABLE [10, 20, 30] EAGAIN).delivered = [10, 20, 30] ∧
    (uvzmq_h.uvzmq_poll_callback ⟨1, 2, 3, true, none, false, true, 0⟩
      UV_READABLE [10, 20, 30] EAGAIN).remaining = [] :=
  C1_drain_completeness ⟨1, 2, 3, true, false, none, false, true, 0⟩
    ⟨1, 2, 3, true, none, false, true, 0⟩ [10, 20, 30]
    rfl rfl rfl rfl (by decide)

/-- C2: when the bridge has been closed, the poll callback of either variant
returns immediately: no `zmq_msg_recv` call, no `ZMQ_EVENTS` query, no
message delivered to the user callback, the socket queue and the bridge
struct untouched. -/
theorem C2_no_callback_when_closed (s : uvzmq_c.uvzmq_socket_s)
    (t : uvzmq_h.uvzmq_socket_s) (events : Nat) (q : List Nat) (e : Nat)
    (hs : s.closed = true) (ht : t.closed = true) :
    (uvzmq_c.uvzmq_poll_callback s events q e).delivered = [] ∧
    (uvzmq_c.uvzmq_poll_callback s events q e).recv_calls = 0 ∧
    (uvzmq_c.uvzmq_poll_callback s events q e).queries = [] ∧
    (uvzmq_c.uvzmq_poll_callback s events q e).remaining = q ∧
    (uvzmq_c.uvzmq_poll_callback s events q e).socket = s ∧
    (uvzmq_h.uvzmq_poll_callback t events q e).delivered = [] ∧
    (uvzmq_h.uvzmq_poll_callback t events q e).recv_calls = 0 ∧
    (uvzmq_h.uvzmq_poll_callback t events q e).remaining = q ∧
    (uvzmq_h.uvzmq_poll_callback t events q e).socket = t := by
  simp [uvzmq_c.uvzmq_poll_callback, uvzmq_h.uvzmq_poll_callback, hs, ht]

/-- Witness for C2: a closed bridge of each variant facing a readable event
with two queued messages. -/
theorem C2_no_callback_when_closed_witness :
    (uvzmq_c.uvzmq_poll_callback ⟨1, 2, 3, true, false, none, true, true, 0⟩
      UV_READABLE [4, 5] EAGAIN).delivered = [] ∧
    (uvzmq_c.uvzmq_poll_callback ⟨1, 2, 3, true, false, none, true, true, 0⟩
      UV_READABLE [4, 5] EAGAIN).recv_calls = 0 ∧
    (uvzmq_c.uvzmq_poll_callback ⟨1, 2, 3, true, false, none, true, true, 0⟩
      UV_READABLE [4, 5] EAGAIN).queries = [] ∧
    (uvzmq_c.uvzmq_poll_callback ⟨1, 2, 3, true, false, none, true, true, 0⟩
      UV_READABLE [4, 5] EAGAIN).remaining = [4, 5] ∧
    (uvzmq_c.uvzmq_poll_callback ⟨1, 2, 3, true, false, none, true, true, 0⟩
      UV_READABLE [4, 5] EAGAIN).socket =
        ⟨1, 2, 3, true, false, none, true, true, 0⟩ ∧
    (uvzmq_h.uvzmq_poll_callback ⟨1, 2, 3, true, none, true, true, 0⟩
      UV_READABLE [4, 5] EAGAIN).delivered = [] ∧
    (uvzmq_h.uvzmq_poll_callback ⟨1, 2, 3, true, none, true, true, 0⟩
      UV_READABLE [4, 5] EAGAIN).recv_calls = 0 ∧
    (uvzmq_h.uvzmq_poll_callback ⟨1, 2, 3, true, none, true, true, 0⟩
      UV_READABLE [4, 5] EAGAIN).remaining = [4, 5] ∧
    (uvzmq_h.uvzmq_poll_callback ⟨1, 2, 3, true, none, true, true, 0⟩
      UV_READABLE [4, 5] EAGAIN).socket = ⟨1, 2, 3, true, none, true, true, 0⟩ :=
  C2_no_callback_when_closed ⟨1, 2, 3, true, false, none, true, true, 0⟩
    ⟨1, 2, 3, true, none, true, true, 0⟩ UV_READABLE [4, 5] EAGAIN rfl rfl

/-- C5: `close` followed by `free` on an open bridge both return success, in
both variants; the trace of calls into the messaging library made by either
function is empty (so no live foreign socket is closed, freed or modified:
the live-socket set is preserved verbatim), and the `zmq_sock` field still
holds the caller's original handle when `free` releases (compiled variant) or
returns (header variant) the bridge struct. -/
theorem C5_foreign_socket_untouched (s : uvzmq_c.uvzmq_socket_s)
    (t : uvzmq_h.uvzmq_socket_s) (w : List Nat)
    (hs : s.closed = false) (ht : t.closed = false) :
    (uvzmq_c.uvzmq_socket_close (some s)).1 = UVZMQ_OK ∧
    (uvzmq_c.uvzmq_socket_free
      (uvzmq_c.uvzmq_socket_close (some s)).2.1).1 = UVZMQ_OK ∧
    ((uvzmq_c.uvzmq_socket_free
      (uvzmq_c.uvzmq_socket_close (some s)).2.1).2.1).map
        (fun b => b.zmq_sock) = some s.zmq_sock ∧
    (uvzmq_c.uvzmq_socket_close (some s)).2.2 = [] ∧
    (uvzmq_c.uvzmq_socket_free (uvzmq_c.uvzmq_socket_close (some s)).2.1).2.2
      = [] ∧
    zmqWorldAfter ((uvzmq_c.uvzmq_socket_close (some s)).2.2 ++
      (uvzmq_c.uvzmq_socket_free
        (uvzmq_c.uvzmq_socket_close (some s)).2.1).2.2) w = w ∧
    (uvzmq_h.uvzmq_socket_close (some t)).1 = 0 ∧
    (uvzmq_h.uvzmq_socket_free (uvzmq_h.uvzmq_socket_close (some t)).2.1).1
      = 0 ∧
    ((uvzmq_h.uvzmq_socket_free
      (uvzmq_h.uvzmq_socket_close (some t)).2.1).2.1).map
        (fun b => b.zmq_sock) = some t.zmq_sock ∧
    (uvzmq_h.uvzmq_socket_close (some t)).2.2 = [] ∧
    (uvzmq_h.uvzmq_socket_free (uvzmq_h.uvzmq_socket_close (some t)).2.1).2.2
      = [] ∧
    zmqWorldAfter ((uvzmq_h.uvzmq_socket_close (some t)).2.2 ++
      (uvzmq_h.uvzmq_socket_free
        (uvzmq_h.uvzmq_socket_close (some t)).2.1).2.2) w = w := by
  have hcs : uvzmq_c.uvzmq_socket_close (some s) =
      (UVZMQ_OK, some { s with closed := true }, []) := by
    simp [uvzmq_c.uvzmq_socket_close, hs]
  have hts : uvzmq_h.uvzmq_socket_close (some t) =
      (0, some { t with closed := true }, []) := by
    simp [uvzmq_h.uvzmq_socket_close, ht]
  rw [hcs, hts]
  rcases hp : s.poll_handle <;> rcases hq : t.poll_handle <;>
    simp [uvzmq_c.uvzmq_socket_free, uvzmq_h.uvzmq_socket_free, hp, hq,
      zmqWorldAfter, UVZMQ_OK, List.filter_eq_self]

/-- Witness for C5: concrete open bridges over foreign socket handle 2, with
the live-socket set containing that handle. -/
theorem C5_foreign_socket_untouched_witness :
    (uvzmq_c.uvzmq_socket_close
      (some ⟨1, 2, 3, true, false, none, false, true, 0⟩)).1 = UVZMQ_OK ∧
    (uvzmq_c.uvzmq_socket_free (uvzmq_c.uvzmq_socket_close
      (some ⟨1, 2, 3, true, false, none, false, true, 0⟩)).2.1).1 = UVZMQ_OK ∧
    ((uvzmq_c.uvzmq_socket_free (uvzmq_c.uvzmq_socket_close
      (some ⟨1, 2, 3, true, false, none, false, true, 0⟩)).2.1).2.1).map
        (fun b => b.zmq_sock) = some 2 ∧
    (uvzmq_c.uvzmq_socket_close
      (some ⟨1, 2, 3, true, false, none, false, true, 0⟩)).2.2 = [] ∧
    (uvzmq_c.uvzmq_socket_free (uvzmq_c.uvzmq_socket_close
      (some ⟨1, 2, 3, true, false, none, false, true, 0⟩)).2.1).2.2 = [] ∧
    zmqWorldAfter ((uvzmq_c.uvzmq_socket_close
      (some ⟨1, 2, 3, true, false, none, false, true, 0⟩)).2.2 ++
      (uvzmq_c.uvzmq_socket_free (uvzmq_c.uvzmq_socket_close
        (some ⟨1, 2, 3, true, false, none, false, true, 0⟩)).2.1).2.2) [2]
      = [2] ∧
    (uvzmq_h.uvzmq_socket_close
      (some ⟨1, 2, 3, true, none, false, true, 0⟩)).1 = 0 ∧
    (uvzmq_h.uvzmq_socket_free (uvzmq_h.uvzmq_socket_close
      (some ⟨1, 2, 3, true, none, false, true, 0⟩)).2.1).1 = 0 ∧
    ((uvzmq_h.uvzmq_socket_free (uvzmq_h.uvzmq_socket_close
      (some ⟨1, 2, 3, true, none, false, true, 0⟩)).2.1).2.1).map
        (fun b => b.zmq_sock) = some 2 ∧
    (uvzmq_h.uvzmq_socket_close
      (some ⟨1, 2, 3, true, none, false, true, 0⟩)).2.2 = [] ∧
    (uvzmq_h.uvzmq_socket_free (uvzmq_h.uvzmq_socket_close
      (some ⟨1, 2, 3, true, none, false, true, 0⟩)).2.1).2.2 = [] ∧
    zmqWorldAfter ((uvzmq_h.uvzmq_socket_close
      (some ⟨1, 2, 3, true, none, false, true, 0⟩)).2.2 ++
      (uvzmq_h.uvzmq_socket_free (uvzmq_h.uvzmq_socket_close
        (some ⟨1, 2, 3, true, none, false, true, 0⟩)).2.1).2.2) [2] = [2] :=
  C5_foreign_socket_untouched ⟨1, 2, 3, true, false, none, false, true, 0⟩
    ⟨1, 2, 3, true, none, false, true, 0⟩ [2] rfl rfl

/-- C6: from an open bridge, the first `close` returns success and marks the
bridge closed; a second `close` on the same bridge fails with a negative
status (the `AlreadyClosed`-class rejection, surfaced as
`UVZMQ_ERROR_INVALID_PARAM` resp. `-1`), and `close` on a NULL bridge fails
with `InvalidArgument`, in both variants. -/
theorem C6_close_once_then_reject (s : uvzmq_c.uvzmq_socket_s)
    (t : uvzmq_h.uvzmq_socket_s) (hs : s.closed = false) (ht : t.closed = false) :
    (uvzmq_c.uvzmq_socket_close (some s)).1 = UVZMQ_OK ∧
    (uvzmq_c.uvzmq_socket_close (some s)).2.1 = some { s with closed := true } ∧
    (uvzmq_c.uvzmq_socket_close
      ((uvzmq_c.uvzmq_socket_close (some s)).2.1)).1 < 0 ∧
    (uvzmq_c.uvzmq_socket_close
      ((uvzmq_c.uvzmq_socket_close (some s)).2.1)).1 =
        UVZMQ_ERROR_INVALID_PARAM ∧
    (uvzmq_c.uvzmq_socket_close none).1 = UVZMQ_ERROR_INVALID_PARAM ∧
    (uvzmq_h.uvzmq_socket_close (some t)).1 = 0 ∧
    (uvzmq_h.uvzmq_socket_close (some t)).2.1 = some { t with closed := true } ∧
    (uvzmq_h.uvzmq_socket_close
      ((uvzmq_h.uvzmq_socket_close (some t)).2.1)).1 < 0 ∧
    (uvzmq_h.uvzmq_socket_close none).1 = -1 := by
  simp [uvzmq_c.uvzmq_socket_close, uvzmq_h.uvzmq_socket_close, hs, ht,
    UVZMQ_OK, UVZMQ_ERROR_INVALID_PARAM]

/-- Witness for C6: a concrete open bridge of each variant. -/
theorem C6_close_once_then_reject_witness :
    (uvzmq_c.uvzmq_socket_close
      (some ⟨1, 2, 3, true, false, none, false, true, 0⟩)).1 = UVZMQ_OK ∧
    (uvzmq_c.uvzmq_socket_close
      (some ⟨1, 2, 3, true, false, none, false, true, 0⟩)).2.1 =
        some { uvzmq_c.uvzmq_socket_s.mk 1 2 3 true false none false true 0
                with closed := true } ∧
    (uvzmq_c.uvzmq_socket_close ((uvzmq_c.uvzmq_socket_close
      (some ⟨1, 2, 3, true, false, none, false, true, 0⟩)).2.1)).1 < 0 ∧
    (uvzmq_c.uvzmq_socket_close ((uvzmq_c.uvzmq_socket_close
      (some ⟨1, 2, 3, true, false, none, false, true, 0⟩)).2.1)).1 =
        UVZMQ_ERROR_INVALID_PARAM ∧
    (uvzmq_c.uvzmq_socket_close none).1 = UVZMQ_ERROR_INVALID_PARAM ∧
    (uvzmq_h.uvzmq_socket_close
      (some ⟨1, 2, 3, true, none, false, true, 0⟩)).1 = 0 ∧
    (uvzmq_h.uvzmq_socket_close
      (some ⟨1, 2, 3, true, none, false, true, 0⟩)).2.1 =
        some { uvzmq_h.uvzmq_socket_s.mk 1 2 3 true none false true 0
                with closed := true } ∧
    (uvzmq_h.uvzmq_socket_close ((uvzmq_h.uvzmq_socket_close
      (some ⟨1, 2, 3, true, none, false, true, 0⟩)).2.1)).1 < 0 ∧
    (uvzmq_h.uvzmq_socket_close none).1 = -1 :=
  C6_close_once_then_reject ⟨1, 2, 3, true, false, none, false, true, 0⟩
    ⟨1, 2, 3, true, none, false, true, 0⟩ rfl rfl

/-- In the header-only drain loop the errno of the terminating failed receive
does not influence behaviour at all: both failure branches close the message
and break. -/
theorem drainLoopH_errno_irrelevant (q : List Nat) (e e' : Nat) :
    uvzmq_h.drainLoopH q e = uvzmq_h.drainLoopH q e' := by
  induction q with
  | nil => rfl
  | cons m rest ih => simp [uvzmq_h.drainLoopH, ih]

/-- One invocation of the compiled variant's poll callback can change the
bridge only in its `total_messages` counter: lifecycle state, handles and
callback slots are untouched. -/
theorem uvzmq_c_poll_callback_preserves (s : uvzmq_c.uvzmq_socket_s)
    (events : Nat) (q : List Nat) (e : Nat) :
    (uvzmq_c.uvzmq_poll_callback s events q e).socket.closed = s.closed ∧
    (uvzmq_c.uvzmq_poll_callback s events q e).socket.zmq_sock = s.zmq_sock ∧
    (uvzmq_c.uvzmq_poll_callback s events q e).socket.loop = s.loop ∧
    (uvzmq_c.uvzmq_poll_callback s events q e).socket.on_recv = s.on_recv ∧
    (uvzmq_c.uvzmq_poll_callback s events q e).socket.poll_handle
      = s.poll_handle := by
  simp only [uvzmq_c.uvzmq_poll_callback]
  split_ifs <;> simp

/-- C7 counterexample: the claim says an EINTR-failed receive stops the drain
loop silently, without logging, in every Drain Dispatch invocation.  In the
compiled variant (`src/src/uvzmq.c` lines 82-90) only `EAGAIN` is silent:
`EINTR` falls into the `fprintf` error branch, as this concrete open,
readable bridge with an empty queue shows. -/
theorem C7_eintr_counterexample :
    (uvzmq_c.uvzmq_poll_callback ⟨1, 2, 3, true, false, none, false, true, 0⟩
      UV_READABLE [] EINTR).logged = true ∧
    (uvzmq_c.uvzmq_poll_callback ⟨1, 2, 3, true, false, none, false, true, 0⟩
      UV_READABLE [] EAGAIN).logged = false := by
  exact ⟨rfl, rfl⟩

/-- C7 (amended): an EINTR-failed receive stops the drain loop and leaves the
bridge intact and eligible for future readiness invocations in both variants;
in the header-only variant EINTR is treated exactly like EAGAIN (the whole
invocation result is identical and that variant never logs), while in the
compiled variant EINTR — unlike EAGAIN — is logged through the error branch
before the loop stops. -/
theorem C7_eintr_amended (s : uvzmq_c.uvzmq_socket_s)
    (t : uvzmq_h.uvzmq_socket_s) (events : Nat) (q : List Nat)
    (hs : s.closed = false) (hr : s.on_recv = true) :
    uvzmq_h.uvzmq_poll_callback t events q EINTR =
      uvzmq_h.uvzmq_poll_callback t events q EAGAIN ∧
    (uvzmq_c.uvzmq_poll_callback s events q EINTR).socket.closed = false ∧
    (uvzmq_c.uvzmq_poll_callback s events q EINTR).socket.zmq_sock
      = s.zmq_sock ∧
    (uvzmq_c.uvzmq_poll_callback s events q EINTR).socket.poll_handle
      = s.poll_handle ∧
    (uvzmq_c.uvzmq_poll_callback s UV_READABLE [] EINTR).logged = true ∧
    (uvzmq_c.uvzmq_poll_callback s UV_READABLE [] EAGAIN).logged = false := by
  have hpres := uvzmq_c_poll_callback_preserves s events q EINTR
  refine ⟨?_, ?_, hpres.2.1, hpres.2.2.2.2, ?_, ?_⟩
  · simp [uvzmq_h.uvzmq_poll_callback,
      drainLoopH_errno_irrelevant q EINTR EAGAIN]
  · rw [hpres.1, hs]
  · simp [uvzmq_c.uvzmq_poll_callback, uvzmq_c.drainLoopC, hs, hr,
      UV_READABLE, EINTR, EAGAIN]
  · simp [uvzmq_c.uvzmq_poll_callback, uvzmq_c.drainLoopC, hs, hr,
      UV_READABLE, EAGAIN]

/-- Witness for C7 (amended): concrete open bridges, one queued message. -/
theorem C7_eintr_amended_witness :
    uvzmq_h.uvzmq_poll_callback ⟨1, 2, 3, true, none, false, true, 0⟩
        UV_READABLE [9] EINTR =
      uvzmq_h.uvzmq_poll_callback ⟨1, 2, 3, true, none, false, true, 0⟩
        UV_READABLE [9] EAGAIN ∧
    (uvzmq_c.uvzmq_poll_callback ⟨1, 2, 3, true, false, none, false, true, 0⟩
      UV_READABLE [9] EINTR).socket.closed = false ∧
    (uvzmq_c.uvzmq_poll_callback ⟨1, 2, 3, true, false, none, false, true, 0⟩
      UV_READABLE [9] EINTR).socket.zmq_sock = 2 ∧
    (uvzmq_c.uvzmq_poll_callback ⟨1, 2, 3, true, false, none, false, true, 0⟩
      UV_READABLE [9] EINTR).socket.poll_handle = true ∧
    (uvzmq_c.uvzmq_poll_callback ⟨1, 2, 3, true, false, none, false, true, 0⟩
      UV_READABLE [] EINTR).logged = true ∧
    (uvzmq_c.uvzmq_poll_callback ⟨1, 2, 3, true, false, none, false, true, 0⟩
      UV_READABLE [] EAGAIN).logged = false :=
  C7_eintr_amended ⟨1, 2, 3, true, false, none, false, true, 0⟩
    ⟨1, 2, 3, true, none, false, true, 0⟩ UV_READABLE [9] rfl rfl

/-- The header-only poll callback, on an open bridge with a non-null receive
callback and a readable event, delivers the whole queue. -/
theorem uvzmq_h_poll_callback_delivers (t : uvzmq_h.uvzmq_socket_s)
    (q : List Nat) (e : Nat) (ht : t.closed = false) (hr : t.on_recv = true) :
    (uvzmq_h.uvzmq_poll_callback t UV_READABLE q e).delivered = q := by
  simp [uvzmq_h.uvzmq_poll_callback, ht, hr, UV_READABLE,
    (drainLoopH_delivers q e).1]

/-- C8 counterexample: the claim says every Drain Dispatch invocation
enforces the 1000-message hard cap (and the every-50th pending-input
re-check).  The header-only variant (`src/include/uvzmq.h` lines 517-533)
has no cap and no re-check: on an open, readable bridge with 1001 queued
messages a single invocation delivers all 1001. -/
theorem C8_no_cap_counterexample :
    ((uvzmq_h.uvzmq_poll_callback ⟨1, 2, 3, true, none, false, true, 0⟩
      UV_READABLE (List.replicate 1001 7) EAGAIN).delivered).length = 1001 := by
  rw [uvzmq_h_poll_callback_delivers _ _ _ rfl rfl, List.length_replicate]

/-- C8 (amended): the compiled variant's Drain Dispatch enforces the
batching limits — at most 1000 messages delivered per invocation; the
pending-input state re-queried only on every 50th delivered message, and a
query reporting no further input pending stops the loop at exactly that
count — while the header-only variant drains without cap or re-check until a
receive fails. -/
theorem C8_batching_limits (s : uvzmq_c.uvzmq_socket_s) (events : Nat)
    (q : List Nat) (e : Nat) :
    (uvzmq_c.uvzmq_poll_callback s events q e).delivered.length ≤ 1000 ∧
    (∀ p ∈ (uvzmq_c.uvzmq_poll_callback s events q e).queries,
      p.1 % 50 = 0 ∧ 0 < p.1 ∧
      (p.2 = false →
        (uvzmq_c.uvzmq_poll_callback s events q e).delivered.length = p.1)) := by
  by_cases h1 : s.closed = true
  · simp [uvzmq_c.uvzmq_poll_callback, h1]
  · by_cases h2 : events &&& UV_READABLE ≠ 0 ∧ s.on_recv = true
    · have hc : (uvzmq_c.uvzmq_poll_callback s events q e).delivered =
          (uvzmq_c.drainLoopC q e 0).delivered ∧
          (uvzmq_c.uvzmq_poll_callback s events q e).queries =
            (uvzmq_c.drainLoopC q e 0).queries := by
        simp [uvzmq_c.uvzmq_poll_callback, h1, h2]
      rw [hc.1, hc.2]
      have hlen := drainLoopC_length_le q e 0 (by omega)
      have hq := drainLoopC_queries_spec q e 0
      refine ⟨by omega, fun p hp => ?_⟩
      obtain ⟨ha, hb, hcq⟩ := hq p hp
      exact ⟨ha, by omega, fun hf => by have h5 := hcq hf; omega⟩
    · have hc : (uvzmq_c.uvzmq_poll_callback s events q e).delivered = [] ∧
          (uvzmq_c.uvzmq_poll_callback s events q e).queries = [] := by
        simp [uvzmq_c.uvzmq_poll_callback, h1, h2]
      rw [hc.1, hc.2]
      simp

/-- Witness for C8 (amended): 50 queued messages; the query at the 50th
delivery reports no input pending and the loop stops there. -/
theorem C8_batching_limits_witness :
    (uvzmq_c.uvzmq_poll_callback ⟨1, 2, 3, true, false, none, false, true, 0⟩
      UV_READABLE (List.replicate 50 5) EAGAIN).delivered.length ≤ 1000 ∧
    ((50 : Nat), false) ∈ (uvzmq_c.uvzmq_poll_callback
      ⟨1, 2, 3, true, false, none, false, true, 0⟩
      UV_READABLE (List.replicate 50 5) EAGAIN).queries ∧
    (uvzmq_c.uvzmq_poll_callback ⟨1, 2, 3, true, false, none, false, true, 0⟩
      UV_READABLE (List.replicate 50 5) EAGAIN).delivered.length = 50 := by
  have hmem : ((50 : Nat), false) ∈ (uvzmq_c.uvzmq_poll_callback
      ⟨1, 2, 3, true, false, none, false, true, 0⟩
      UV_READABLE (List.replicate 50 5) EAGAIN).queries := by decide
  have h := C8_batching_limits ⟨1, 2, 3, true, false, none, false, true, 0⟩
    UV_READABLE (List.replicate 50 5) EAGAIN
  exact ⟨h.1, hmem, (h.2 (50, false) hmem).2.2 rfl⟩

/-- After a successful `uvzmq_reaper_start` on loop `lp`, the global reaper
points at `lp` and is running. -/
theorem uvzmq_reaper_start_ok_state (env : uvzmq_h.ReaperEnv)
    (g : Option uvzmq_h.uvzmq_reaper_s) (lp : Nat)
    (h : (uvzmq_h.uvzmq_reaper_start env g (some lp)).1 = 0) :
    (uvzmq_h.uvzmq_reaper_start env g (some lp)).2 =
      some { loop := lp, running := true } := by
  rcases g with _ | r
  · by_cases h1 : env.malloc_ok = false
    · simp [uvzmq_h.uvzmq_reaper_start, h1] at h
    · by_cases h2 : env.timer_init_rc ≠ 0
      · simp [uvzmq_h.uvzmq_reaper_start, h1, h2] at h
      · by_cases h3 : env.timer_start_rc ≠ 0
        · simp [uvzmq_h.uvzmq_reaper_start, h1, h2, h3] at h
        · simp [uvzmq_h.uvzmq_reaper_start, h1, h2, h3]
  · by_cases h0 : r.loop = lp ∧ r.running = true
    · cases r
      simp only [uvzmq_h.uvzmq_reaper_start, if_pos h0]
      obtain ⟨ha, hb⟩ := h0
      simp_all
    · by_cases h2 : env.timer_init_rc ≠ 0
      · simp [uvzmq_h.uvzmq_reaper_start, h0, h2] at h
      · by_cases h3 : env.timer_start_rc ≠ 0
        · simp [uvzmq_h.uvzmq_reaper_start, h0, h2, h3] at h
        · simp [uvzmq_h.uvzmq_reaper_start, h0, h2, h3]

/-- C9: `uvzmq_reaper_start` is idempotent per loop — after a successful
start on a loop, a second start on the same loop (under any environment) is
a no-op returning 0 — and `uvzmq_reaper_stop` fails with the
`InvalidArgument`-class status `-1` when the loop is NULL, when no global
reaper exists, or when the reaper was started on a different loop, leaving
the global reaper state unchanged in each failure case. -/
theorem C9_reaper_start_stop (env env2 : uvzmq_h.ReaperEnv)
    (g : Option uvzmq_h.uvzmq_reaper_s) (lp lp2 : Nat)
    (r : uvzmq_h.uvzmq_reaper_s)
    (hok : (uvzmq_h.uvzmq_reaper_start env g (some lp)).1 = 0)
    (hdiff : r.loop ≠ lp2) :
    uvzmq_h.uvzmq_reaper_start env2
        ((uvzmq_h.uvzmq_reaper_start env g (some lp)).2) (some lp) =
      (0, (uvzmq_h.uvzmq_reaper_start env g (some lp)).2) ∧
    uvzmq_h.uvzmq_reaper_stop g none = (-1, g) ∧
    uvzmq_h.uvzmq_reaper_stop none (some lp) = (-1, none) ∧
    uvzmq_h.uvzmq_reaper_stop (some r) (some lp2) = (-1, some r) := by
  have hst := uvzmq_reaper_start_ok_state env g lp hok
  refine ⟨?_, ?_, rfl, ?_⟩
  · rw [hst]
    simp [uvzmq_h.uvzmq_reaper_start]
  · rcases g with _ | r' <;> rfl
  · simp [uvzmq_h.uvzmq_reaper_stop, hdiff]

/-- Witness for C9: start from no reaper with an all-successful environment
on loop 1; a stopped-reaper record on loop 1 rejects a stop on loop 2. -/
theorem C9_reaper_start_stop_witness :
    uvzmq_h.uvzmq_reaper_start ⟨false, 1, 1⟩
        ((uvzmq_h.uvzmq_reaper_start ⟨true, 0, 0⟩ none (some 1)).2) (some 1) =
      (0, (uvzmq_h.uvzmq_reaper_start ⟨true, 0, 0⟩ none (some 1)).2) ∧
    uvzmq_h.uvzmq_reaper_stop none none = (-1, none) ∧
    uvzmq_h.uvzmq_reaper_stop none (some 1) = (-1, none) ∧
    uvzmq_h.uvzmq_reaper_stop (some ⟨1, true⟩) (some 2) = (-1, some ⟨1, true⟩) :=
  C9_reaper_start_stop ⟨true, 0, 0⟩ ⟨false, 1, 1⟩ none 1 2 ⟨1, true⟩
    (by decide) (by decide)
